import Mathlib

/-!
Verification development for the `suitcase-nxsas` serializer.

The definitions below are a shallow embedding of `suitcase/nxsas/__init__.py`
and `suitcase/nxsas/utils.py`:
* the streaming `event_page` handler with its per-field dataset creation and
  append logic (`Serializer.event_page`),
* descriptor shape reconciliation
  (`Serializer.check_and_correct_h5_descriptor_array_shape`),
* dtype resolution (`get_h5_dtype_from_descriptor_dtype`),
* the metadata tree writer (`_copy_metadata_to_h5_datasets`),
* the bluesky path-address parser (`_parse_bluesky_document_path`) and
  resolver (`_get_h5_group_or_dataset`),
* the serializer lifecycle (`start` / `stop` / `close` / `__exit__`).

HDF5 groups are modelled as maps from names to optional contents; datasets
are modelled as lists of rows.  Errors raised by the Python code are modelled
with an explicit error type; where the mutated HDF5 file is observable after
an exception propagates, functions return the error together with the state
reached so far.
-/

set_option autoImplicit false

/-- A per-event value as it appears in an event_page `data` list: a Python
number, a Python string, or a numpy ndarray carrying its shape, its numpy
dtype name and its (flattened) contents.  No arithmetic is ever performed on
values; they are carried opaquely into datasets. -/
inductive PyVal where
  | scalar (v : Rat)
  | strVal (s : String)
  | arr (shape : List Int) (dtypeName : String) (flat : List Rat)
deriving DecidableEq

/-- Python `x.shape`: defined for ndarrays only; `none` models the
`AttributeError` raised on any other value. -/
def PyVal.evShape : PyVal → Option (List Int)
  | .arr s _ _ => some s
  | _ => none

/-- The per-field information stored under
`bluesky/descriptors/<stream>/data_keys/<field>`: the declared dtype category
and the declared shape. -/
structure DataKeyInfo where
  dtype : String
  shape : List Int
deriving DecidableEq

/-- Concrete HDF5 element types produced by `get_h5_dtype_from_descriptor_dtype`. -/
inductive H5Dtype where
  | stringDtype
  | f8
  | i4
  | npDtype (name : String)
deriving DecidableEq

/-- Errors raised while serializing documents.  Each constructor corresponds
to a Python exception site. -/
inductive SerErr where
  | unfilled (key : String)
  | tsKeyError (key : String)
  | keyError (key : String)
  | indexError (key : String)
  | attributeError (key : String)
  | valueError (msg : String)
  | unknownDtype (dtype : String) (key : String)
  | broadcastError (key : String)
  | objectDtypeError (key : String)
  | nameExists (key : String)
  | typeError (badKwarg : String)
deriving DecidableEq

/-- The message of the `ValueError` raised when descriptor and event_page
shapes cannot be reconciled; from the source f-string it interpolates the
data_key only. -/
def irreconcilableMsg (ep_data_key : String) : String :=
  "descriptor and event_page array shapes for data_key " ++ ep_data_key ++
    " can not be reconciled"

/-- `Serializer.check_and_correct_h5_descriptor_array_shape`: compares the
shape stored in the descriptor with `ep_data_list[0].shape`.  Returns `none`
when no correction is needed, `some s` when the stored shape must be
rewritten to `s`, and the `ValueError` otherwise.
Python: `shape_in_descriptor[:2] == shape_in_event_page`,
`tuple(reversed(shape_in_descriptor))[1:] == shape_in_event_page`. -/
def check_and_correct_h5_descriptor_array_shape (ep_data_key : String)
    (shape_in_descriptor : List Int) (shape_in_event_page : List Int) :
    Except SerErr (Option (List Int)) :=
  if shape_in_descriptor.take 2 = shape_in_event_page then
    Except.ok none
  else if shape_in_descriptor.reverse.drop 1 = shape_in_event_page then
    Except.ok (some shape_in_descriptor.reverse)
  else
    Except.error (.valueError (irreconcilableMsg ep_data_key))

/-- `get_h5_dtype_from_descriptor_dtype`: `"array"` takes the dtype of
`ep_data_list[0]` (IndexError on an empty list, AttributeError on a
non-array element); `"string"`, `"number"`, `"integer"` map through
`_descriptor_dtype_to_h5_dtype`; anything else raises `ValueError`. -/
def get_h5_dtype_from_descriptor_dtype (descriptor_dtype : String)
    (ep_data_key : String) (ep_data_list : List PyVal) : Except SerErr H5Dtype :=
  if descriptor_dtype = "array" then
    match ep_data_list.head? with
    | none => Except.error (.indexError ep_data_key)
    | some (.arr _ d _) => Except.ok (.npDtype d)
    | some _ => Except.error (.attributeError ep_data_key)
  else if descriptor_dtype = "string" then Except.ok .stringDtype
  else if descriptor_dtype = "number" then Except.ok .f8
  else if descriptor_dtype = "integer" then Except.ok .i4
  else Except.error (.unknownDtype descriptor_dtype ep_data_key)

/-- The row shape of `np.asarray(ep_data_list)` past its leading (event)
axis: `[]` for a list of scalars, the common shape for a list of equal-shape
ndarrays.  A mixed or ragged list produces a numpy object array which the
HDF5 write then rejects; that failure is modelled here. -/
def asarrayRowShape (key : String) (values : List PyVal) :
    Except SerErr (List Int) :=
  match values with
  | [] => Except.ok []
  | v :: rest =>
    match v with
    | .arr s _ _ =>
      if rest.all (fun w => w.evShape = some s) then Except.ok s
      else Except.error (.objectDtypeError key)
    | _ =>
      if rest.all (fun w => w.evShape = none) then Except.ok []
      else Except.error (.objectDtypeError key)

/-- A resizable HDF5 dataset under `events/<stream>/data`: the per-row shape
(`shape[1:]`, fixed by `maxshape`), the element dtype, and the rows written
so far. -/
structure H5Dataset where
  rowShape : List Int
  dtype : H5Dtype
  rows : List PyVal
deriving DecidableEq

/-- The HDF5 state of one stream: the descriptor `data_keys` information and
the `events/<stream>/data` and `events/<stream>/timestamps` groups. -/
structure StreamState where
  dataKeys : String → Option DataKeyInfo
  data : String → Option H5Dataset
  timestamps : String → Option (List Rat)

/-- Update one name of a group map. -/
def updFn {α : Type} (m : String → Option α) (key : String) (v : α) :
    String → Option α :=
  fun k => if k = key then some v else m k

/-- An event_page document restricted to what the handler reads: the `data`
mapping in insertion order, and the `timestamps` and `filled` mappings. -/
structure EventPage where
  data : List (String × List PyVal)
  timestamps : String → Option (List Rat)
  filled : String → Option Bool

/-- `dset[:] = src` on a fresh 1-d dataset of length `targetLen`: numpy
assignment succeeds when the source has the target length, or broadcasts a
length-1 source. -/
def h5Assign1d (key : String) (targetLen : Nat) (src : List Rat) :
    Except SerErr (List Rat) :=
  if src.length = targetLen then Except.ok src
  else if src.length = 1 then Except.ok (List.replicate targetLen src.headI)
  else Except.error (.broadcastError key)

/-- Does a per-event value fit as one row of a dataset with row shape
`rowShape`?  (numpy broadcasting beyond an exact shape match is not
modelled.) -/
def rowMatches (rowShape : List Int) : PyVal → Bool
  | .arr s _ _ => decide (s = rowShape)
  | _ => decide (rowShape = [])

/-- The shape check/correction block guarding dataset creation: run only for
`"array"` dtype; reads `ep_data_list[0].shape` and possibly rewrites the
shape stored in the descriptor group in place. -/
def shapeStep (st : StreamState) (key : String) (values : List PyVal)
    (info : DataKeyInfo) : Except SerErr (StreamState × DataKeyInfo) :=
  if info.dtype = "array" then
    match values.head? with
    | none => Except.error (.indexError key)
    | some v =>
      match v.evShape with
      | none => Except.error (.attributeError key)
      | some obsShape =>
        match check_and_correct_h5_descriptor_array_shape key info.shape obsShape with
        | .error e => Except.error e
        | .ok none => Except.ok (st, info)
        | .ok (some corrected) =>
          Except.ok ({ st with dataKeys := updFn st.dataKeys key { info with shape := corrected } },
            { info with shape := corrected })
  else Except.ok (st, info)

/-- First event_page for a data_key: run the shape check/correction for
`"array"` dtype, resolve the dtype, create the value dataset with the whole
batch as contents, then create the timestamps dataset of leading length
`ep_data_array.shape[0]` and fill it.  Errors carry the HDF5 state reached
when the exception propagates. -/
def processFieldFirst (st : StreamState) (key : String) (values : List PyVal)
    (tsList : List Rat) (info : DataKeyInfo) :
    Except (SerErr × StreamState) StreamState :=
  match shapeStep st key values info with
  | .error e => Except.error (e, st)
  | .ok (st1, info1) =>
    match get_h5_dtype_from_descriptor_dtype info1.dtype key values with
    | .error e => Except.error (e, st1)
    | .ok dt =>
      match asarrayRowShape key values with
      | .error e => Except.error (e, st1)
      | .ok rowShape =>
        match st1.timestamps key with
        | some _ =>
          Except.error (.nameExists key,
            { st1 with data := updFn st1.data key { rowShape := rowShape, dtype := dt, rows := values } })
        | none =>
          match h5Assign1d key values.length tsList with
          | .error e =>
            Except.error (e,
              { st1 with data := updFn st1.data key { rowShape := rowShape, dtype := dt, rows := values } })
          | .ok tsStored =>
            Except.ok
              { st1 with
                data := updFn st1.data key { rowShape := rowShape, dtype := dt, rows := values },
                timestamps := updFn st1.timestamps key tsStored }

/-- Subsequent event_page for a data_key: `ds.resize` by the batch size and
write the new rows after the previous end, then the same for the timestamps
dataset. -/
def processFieldAppend (st : StreamState) (key : String) (values : List PyVal)
    (tsList : List Rat) (ds : H5Dataset) :
    Except (SerErr × StreamState) StreamState :=
  if values.all (rowMatches ds.rowShape) then
    match st.timestamps key with
    | none =>
      Except.error (.keyError key,
        { st with data := updFn st.data key { ds with rows := ds.rows ++ values } })
    | some ts0 =>
      Except.ok
        { st with
          data := updFn st.data key { ds with rows := ds.rows ++ values },
          timestamps := updFn st.timestamps key (ts0 ++ tsList) }
  else Except.error (.broadcastError key, st)

/-- One iteration of the `for ep_data_key, ep_data_list in
event_page_doc["data"].items()` loop: reject an unfilled field, read the
timestamps list, read the stored descriptor information (KeyError if the
field was never declared), then create or append. -/
def processField (page : EventPage) (st : StreamState) (key : String)
    (values : List PyVal) : Except (SerErr × StreamState) StreamState :=
  if page.filled key = some false then Except.error (.unfilled key, st)
  else
    match page.timestamps key with
    | none => Except.error (.tsKeyError key, st)
    | some tsList =>
      match st.dataKeys key with
      | none => Except.error (.keyError key, st)
      | some info =>
        match st.data key with
        | none => processFieldFirst st key values tsList info
        | some ds => processFieldAppend st key values tsList ds

/-- The loop of `Serializer.event_page` over the page's fields in insertion
order, stopping at the first exception (the state mutated so far persists in
the file). -/
def processFields (page : EventPage) :
    StreamState → List (String × List PyVal) →
    Except (SerErr × StreamState) StreamState
  | st, [] => Except.ok st
  | st, (key, values) :: rest =>
    match processField page st key values with
    | .error e => Except.error e
    | .ok st' => processFields page st' rest

namespace Serializer

/-- `Serializer.event_page` restricted to one stream's HDF5 state. -/
def event_page (st : StreamState) (page : EventPage) :
    Except (SerErr × StreamState) StreamState :=
  processFields page st page.data

end Serializer

/-- Process a sequence of event_page documents of one stream. -/
def processPages (st : StreamState) :
    List EventPage → Except (SerErr × StreamState) StreamState
  | [] => Except.ok st
  | p :: rest =>
    match Serializer.event_page st p with
    | .error e => Except.error e
    | .ok st' => processPages st' rest

/-- A Python metadata value at a leaf of a document mapping.  `pyjson j`
models a value the storage substrate cannot hold directly (`create_dataset`
raises TypeError), carried together with its `json.dumps` rendering. -/
inductive MDVal where
  | pynone
  | pystr (s : String)
  | pybytes (bs : List Nat)
  | pyint (n : Int)
  | pyfloat (q : Rat)
  | pystrList (l : List String)
  | pyintList (l : List Int)
  | pyfloatList (l : List Rat)
  | pyjson (dumps : String)
deriving DecidableEq

/-- A nested document mapping: leaves and sub-mappings in insertion order. -/
inductive MDTree where
  | leaf (v : MDVal)
  | map (entries : List (String × MDTree))

/-- A node of the HDF5 file: a group of named children, or a dataset.  A
dataset records whether it was created with `h5py.string_dtype()` and the
value written. -/
inductive H5Node where
  | grp (entries : List (String × H5Node))
  | ds (dtypeIsString : Bool) (value : MDVal)

/-- The leaf branch of `_copy_metadata_to_h5_datasets`: `None` becomes the
string `"None"`, the single null byte becomes the empty string, strings and
all-string sequences are written with the string dtype, other values are
written directly, and values the substrate rejects are stored as their JSON
encoding with the string dtype. -/
def writeLeafDataset (value : MDVal) : H5Node :=
  let value := if value = MDVal.pynone then MDVal.pystr "None"
    else if value = MDVal.pybytes [0] then MDVal.pystr ""
    else value
  match value with
  | .pystr s => H5Node.ds true (.pystr s)
  | .pystrList l => H5Node.ds true (.pystrList l)
  | .pyjson dumps => H5Node.ds true (.pystr dumps)
  | v => H5Node.ds false v

/-- `_copy_metadata_to_h5_datasets`: recursively mirror a mapping into
nested HDF5 groups and datasets. -/
def _copy_metadata_to_h5_datasets :
    List (String × MDTree) → List (String × H5Node)
  | [] => []
  | (key, .map entries) :: rest =>
    (key, H5Node.grp (_copy_metadata_to_h5_datasets entries)) ::
      _copy_metadata_to_h5_datasets rest
  | (key, .leaf v) :: rest =>
    (key, writeLeafDataset v) :: _copy_metadata_to_h5_datasets rest

/-- Python `\w` on ASCII input: letters, digits and underscore. -/
def isWordChar (c : Char) : Bool := c.isAlphanum || c = '_'

/-- Split off the maximal leading run of word characters. -/
def takeWord (cs : List Char) : List Char × List Char :=
  match cs with
  | [] => ([], [])
  | c :: rest =>
    if isWordChar c then ((c :: (takeWord rest).1), (takeWord rest).2)
    else ([], c :: rest)

/-- Strip an exact leading literal, returning the remainder. -/
def dropLit : List Char → List Char → Option (List Char)
  | [], cs => some cs
  | _ :: _, [] => none
  | p :: ps, c :: cs => if c = p then dropLit ps cs else none

/-- The dict returned by `_parse_bluesky_document_path`: entries `doc`,
`stream`, `keys` and `attribute` (the intermediate `all_keys` string is
represented directly by its split, `keys`). -/
structure BlueskyDocumentPath where
  doc : String
  stream : Option String
  keys : List String
  attrName : Option String
deriving DecidableEq

/-- The `(/\w+)*` part of the query regex: greedily consume `/word`
segments; the rest of the input is returned unconsumed.  `fuel` bounds the
number of segments; each consumed segment is at least two characters long,
so the input length is always enough fuel. -/
def parseKeysGo : Nat → List Char → List String × List Char
  | _, [] => ([], [])
  | 0, cs => ([], cs)
  | Nat.succ fuel, c :: rest =>
    if c = '/' ∧ (takeWord rest).1 ≠ [] then
      let (ks, r') := parseKeysGo fuel (takeWord rest).2
      (String.mk (takeWord rest).1 :: ks, r')
    else ([], c :: rest)

/-- The `(/\w+)*` part of the query regex. -/
def parseKeys (cs : List Char) : List String × List Char :=
  parseKeysGo cs.length cs

/-- The optional `@\w+` suffix of the query regex. -/
def parseAttr (cs : List Char) : Option String :=
  match cs with
  | '@' :: rest =>
    match takeWord rest with
    | ([], _) => none
    | (w, _) => some (String.mk w)
  | _ => none

/-- The `(start|stop|desc/\w+)` alternation, with the Python post-processing
`path_info["doc"].split("/")[0]` built in: returns the `doc` name, the
stream name for `desc` paths, and the remaining input. -/
def parseSelector (cs : List Char) :
    Option (String × Option String × List Char) :=
  match dropLit ("start".toList) cs with
  | some r => some ("start", none, r)
  | none =>
    match dropLit ("stop".toList) cs with
    | some r => some ("stop", none, r)
    | none =>
      match dropLit ("desc/".toList) cs with
      | none => none
      | some r =>
        match takeWord r with
        | ([], _) => none
        | (w, r') => some ("desc", some (String.mk w), r')

/-- The single-quote character interpolated by the Python error f-string. -/
def singleQuote : String := String.singleton (Char.ofNat 39)

/-- The message of the `Exception` raised on a parse failure; it names the
input string. -/
def parseFailMsg (s : String) : String :=
  "failed to parse " ++ singleQuote ++ s ++ singleQuote

/-- `_parse_bluesky_document_path`: match the regex
`#bluesky/(start|stop|desc/\w+)(/\w+)*(@\w+)?` — anchored at the start of
the input only, as `re.match` is — and return its groups; raise on a failed
match.  Input after the matched prefix is ignored. -/
def _parse_bluesky_document_path (s : String) :
    Except String BlueskyDocumentPath :=
  match dropLit ("#bluesky/".toList) s.toList with
  | none => Except.error (parseFailMsg s)
  | some rest =>
    match parseSelector rest with
    | none => Except.error (parseFailMsg s)
    | some (doc, stream, rest1) =>
      let (keys, rest2) := parseKeys rest1
      Except.ok
        { doc := doc, stream := stream, keys := keys,
          attrName := parseAttr rest2 }

/-- HDF5 `group[key]`: KeyError when the name is absent, and indexing a
dataset by name fails as well. -/
def h5Index (node : H5Node) (key : String) : Except SerErr H5Node :=
  match node with
  | .grp entries =>
    match entries.lookup key with
    | some n => Except.ok n
    | none => Except.error (.keyError key)
  | .ds _ _ => Except.error (.keyError key)

/-- `_get_h5_group_or_dataset`: `h5_file["bluesky"][doc]`, then each key in
order.  It indexes with `path.doc` — for desc paths the literal string
`"desc"` — and never reads `path.stream`. -/
def _get_h5_group_or_dataset (path : BlueskyDocumentPath) (h5_file : H5Node) :
    Except SerErr H5Node := do
  let bluesky ← h5Index h5_file "bluesky"
  let g ← h5Index bluesky path.doc
  path.keys.foldlM h5Index g

/-- The lifecycle-relevant state of a `Serializer` instance: whether a start
document has opened the output file, whether the HDF5 file object is
currently open, how many times `close()` has been invoked on it, and how
many times the NeXus materializer `_copy_nexus_md_to_nexus_h5` has been
entered. -/
structure SerializerState where
  fileCreated : Bool
  fileOpen : Bool
  closeCalls : Nat
  materializerCalls : Nat
deriving DecidableEq

/-- A fresh serializer: `self._h5_output_file = None`. -/
def Serializer.init : SerializerState :=
  { fileCreated := false, fileOpen := false, closeCalls := 0,
    materializerCalls := 0 }

/-- `Serializer.start`: open the output file.  (The metadata written on
start is modelled by `_copy_metadata_to_h5_datasets`.) -/
def Serializer.start (st : SerializerState) : SerializerState :=
  { st with fileCreated := true, fileOpen := true }

/-- `Serializer.close`: `self._h5_output_file.close()`.  When no start
document was processed the attribute is still `None`, so the call raises
AttributeError; calling `close()` on an already-closed h5py File is a
harmless second invocation. -/
def Serializer.close (st : SerializerState) : Except SerErr SerializerState :=
  if st.fileCreated then
    Except.ok { st with fileOpen := false, closeCalls := st.closeCalls + 1 }
  else
    Except.error (.attributeError "close")

/-- `Serializer.__exit__`: unconditionally calls `close()`. -/
def Serializer.exitScope (st : SerializerState) : Except SerErr SerializerState :=
  Serializer.close st

/-- One technique block of `start_doc["md"]["techniques"]`. -/
structure Technique where
  technique : String
  version : Int
  nxsas : List (String × MDTree)

/-- Start-document metadata consulted by `stop`: the `md.techniques` list
when `"md"` and `"techniques"` are present. -/
structure StartDocMd where
  md_techniques : Option (List Technique)

/-- The parameter names of `_copy_nexus_md_to_nexus_h5` as defined in
`utils.py`: `def _copy_nexus_md_to_nexus_h5(nexus_md, h5_group)`. -/
def copyNexusMdParamNames : List String := ["nexus_md", "h5_group"]

/-- The keyword names used at the call site inside `Serializer.stop`:
`_copy_nexus_md_to_nexus_h5(nexus_md=..., h5_group_or_dataset=...)`. -/
def stopCallKeywordNames : List String := ["nexus_md", "h5_group_or_dataset"]

/-- Python keyword binding: a call raises TypeError at the first keyword
argument that names no parameter of the callee. -/
def firstBadKwarg (params kwargs : List String) : Option String :=
  kwargs.find? (fun k => !params.contains k)

/-- `Serializer.stop`: write the stop metadata, then for every technique
block present in the start document call
`_copy_nexus_md_to_nexus_h5(nexus_md=technique_info["nxsas"],
h5_group_or_dataset=self._h5_output_file)`, and finally `self.close()`.
The materializer body is entered only if the keyword arguments bind. -/
def Serializer.stop (startDoc : StartDocMd) (st : SerializerState) :
    Except SerErr SerializerState := do
  let st1 ← (startDoc.md_techniques.getD []).foldlM
    (fun s _t =>
      match firstBadKwarg copyNexusMdParamNames stopCallKeywordNames with
      | some bad => Except.error (SerErr.typeError bad)
      | none => Except.ok { s with materializerCalls := s.materializerCalls + 1 })
    st
  Serializer.close st1

/-- Spec formalization, for comparison with the code parser: the
path-address grammar `"#bluesky/" doc-selector ("/" key)* ("@" attribute)?`
with `doc-selector := "start" | "stop" | "desc/" stream-name`, read as a
property of the whole string (no trailing input allowed). -/
def grammarMatchFull (s : String) : Bool :=
  match dropLit ("#bluesky/".toList) s.toList with
  | none => false
  | some rest =>
    match parseSelector rest with
    | none => false
    | some (_, _, rest1) =>
      let (_, rest2) := parseKeys rest1
      match rest2 with
      | [] => true
      | '@' :: r2 =>
        match takeWord r2 with
        | ([], _) => false
        | (_, r3) => decide (r3 = [])
      | _ => false

/-- Spec formalization: the same grammar read as a property of a leading
prefix of the string, which is what an end-unanchored `re.match` tests.  The
`("/" key)*` and `("@" attribute)?` parts match the empty string, so a
leading match is decided by the mandatory `"#bluesky/" doc-selector` part
alone. -/
def grammarMatchesLeading (s : String) : Bool :=
  match dropLit ("#bluesky/".toList) s.toList with
  | none => false
  | some rest => (parseSelector rest).isSome

/-- The rows written so far for a field, empty when the dataset does not
exist yet. -/
def oldRows (st : StreamState) (f : String) : List PyVal :=
  match st.data f with
  | some ds => ds.rows
  | none => []

/-- The timestamp rows written so far for a field. -/
def oldTs (st : StreamState) (f : String) : List Rat :=
  (st.timestamps f).getD []

/-- The HDF5 state observable after a field-processing step, whether it
returned normally or raised. -/
def outState : Except (SerErr × StreamState) StreamState → StreamState
  | .ok st => st
  | .error (_, st) => st

/-- Two stream states agree on every field other than `key`. -/
def agreesOff (st st' : StreamState) (key : String) : Prop :=
  ∀ k, k ≠ key →
    st'.dataKeys k = st.dataKeys k ∧ st'.data k = st.data k ∧
      st'.timestamps k = st.timestamps k

/-- A raw-document tree as built by `start` and one `descriptor` for the
stream "primary": the four fixed top-level sections under `bluesky`. -/
def sampleRawFile : H5Node :=
  H5Node.grp [("bluesky", H5Node.grp
    [ ("start", H5Node.grp [("beamline_id", H5Node.ds true (.pystr "SST-1"))]),
      ("descriptors", H5Node.grp [("primary", H5Node.grp
        [("data_keys", H5Node.grp [("en_energy", H5Node.grp [])])])]),
      ("events", H5Node.grp []),
      ("stop", H5Node.grp [("time", H5Node.ds false (.pyfloat 100))]) ])]

/-- The parse of `#bluesky/desc/primary/data_keys`. -/
def descPathPrimary : BlueskyDocumentPath :=
  { doc := "desc", stream := some "primary", keys := ["data_keys"],
    attrName := none }

/-- The parse of `#bluesky/start/beamline_id`. -/
def startPathBeamline : BlueskyDocumentPath :=
  { doc := "start", stream := none, keys := ["beamline_id"], attrName := none }

/-- A technique block like the SAXS block of the test metadata. -/
def saxsTechnique : Technique :=
  { technique := "SAXS", version := 1,
    nxsas := [("entry", MDTree.map
      [("program_name", MDTree.leaf (.pystr "EPICS areaDetector"))])] }

/-- A run driven through a `with Serializer(...)` scope: `start`, a
technique-free `stop`, then `__exit__`. -/
def normalScopeRun : Except SerErr SerializerState := do
  let st := Serializer.start Serializer.init
  let st1 ← Serializer.stop { md_techniques := none } st
  Serializer.exitScope st1

/-- The descriptor entry of the `en_energy` test field. -/
def c2Info : DataKeyInfo := { dtype := "number", shape := [] }

/-- A stream state holding only the declaration of `en_energy`. -/
def c2St0 : StreamState :=
  { dataKeys := fun k => if k = "en_energy" then some c2Info else none,
    data := fun _ => none, timestamps := fun _ => none }

/-- First test event_page: values `[1.0, 2.0]`, timestamps `[100.0, 200.0]`. -/
def c2Page1 : EventPage :=
  { data := [("en_energy", [PyVal.scalar 1, PyVal.scalar 2])],
    timestamps := fun k => if k = "en_energy" then some [100, 200] else none,
    filled := fun _ => none }

/-- Second test event_page: values `[3.0, 4.0]`, timestamps `[300.0, 400.0]`. -/
def c2Page2 : EventPage :=
  { data := [("en_energy", [PyVal.scalar 3, PyVal.scalar 4])],
    timestamps := fun k => if k = "en_energy" then some [300, 400] else none,
    filled := fun _ => none }

/-- The run of the two test pages. -/
def c2Run : Except (SerErr × StreamState) StreamState :=
  processPages c2St0 [c2Page1, c2Page2]

/-- The state after the two test pages. -/
def c2St1 : StreamState :=
  match c2Run with
  | .ok s => s
  | .error (_, s) => s

/-- A page with two fields where only the second is marked unfilled. -/
def c5Page : EventPage :=
  { data := [("a", [PyVal.scalar 1]), ("b", [PyVal.scalar 2])],
    timestamps := fun k =>
      if k = "a" then some [100] else if k = "b" then some [200] else none,
    filled := fun k => if k = "b" then some false else none }

/-- Declarations for the two fields of `c5Page`. -/
def c5St0 : StreamState :=
  { dataKeys := fun k =>
      if k = "a" ∨ k = "b" then some { dtype := "number", shape := [] } else none,
    data := fun _ => none, timestamps := fun _ => none }

/-- The state observable when processing `c5Page` raises: field `a` has
already been written. -/
def c5ErrState : StreamState :=
  { dataKeys := c5St0.dataKeys,
    data := updFn c5St0.data "a"
      { rowShape := [], dtype := .f8, rows := [PyVal.scalar 1] },
    timestamps := updFn c5St0.timestamps "a" [100] }

/-- A declaration of an array field whose shape `[7, 9, 0]` is neither equal
to nor the reverse of the sample shape `[5, 6]`. -/
def c8St0 : StreamState :=
  { dataKeys := fun k =>
      if k = "img" then some { dtype := "array", shape := [7, 9, 0] } else none,
    data := fun _ => none, timestamps := fun _ => none }

/-- A page delivering a `(5, 6)`-shaped sample for `img`. -/
def c8Page : EventPage :=
  { data := [("img", [PyVal.arr [5, 6] "uint32" []])],
    timestamps := fun k => if k = "img" then some [1000] else none,
    filled := fun _ => none }

/-- A stream with no declared data_keys at all. -/
def c10St0 : StreamState :=
  { dataKeys := fun _ => none, data := fun _ => none,
    timestamps := fun _ => none }

/-- A page delivering data for the undeclared field `mystery`. -/
def c10Page : EventPage :=
  { data := [("mystery", [PyVal.scalar 7])],
    timestamps := fun k => if k = "mystery" then some [1] else none,
    filled := fun _ => none }

/-! ## Helper lemmas -/

theorem updFn_self {α : Type} (m : String → Option α) (key : String) (v : α) :
    updFn m key v key = some v := by
  simp [updFn]

theorem updFn_other {α : Type} (m : String → Option α) (key k : String) (v : α)
    (h : k ≠ key) : updFn m key v k = m k := by
  simp [updFn, h]

theorem lookup_cons_self {β : Type} (k : String) (v : β)
    (l : List (String × β)) : ((k, v) :: l).lookup k = some v := by
  simp [List.lookup]

theorem lookup_cons_ne {β : Type} (k f : String) (v : β)
    (l : List (String × β)) (h : f ≠ k) :
    ((k, v) :: l).lookup f = l.lookup f := by
  have hb : (f == k) = false := beq_eq_false_iff_ne.mpr h
  simp [List.lookup, hb]

theorem lookup_eq_none_of_not_mem {β : Type} (f : String)
    (l : List (String × β)) (h : f ∉ l.map Prod.fst) : l.lookup f = none := by
  induction l with
  | nil => rfl
  | cons p rest ih =>
    obtain ⟨k, v⟩ := p
    simp only [List.map_cons, List.mem_cons] at h
    push_neg at h
    rw [lookup_cons_ne k f v rest h.1]
    exact ih h.2

theorem shapeStep_ok_state (st : StreamState) (key : String)
    (values : List PyVal) (info : DataKeyInfo) (st1 : StreamState)
    (info1 : DataKeyInfo)
    (h : shapeStep st key values info = Except.ok (st1, info1)) :
    st1.data = st.data ∧ st1.timestamps = st.timestamps ∧
    ∀ k, k ≠ key → st1.dataKeys k = st.dataKeys k := by
  unfold shapeStep at h
  split at h
  · split at h
    · simp at h
    · split at h
      · simp at h
      · split at h
        · simp at h
        · simp only [Except.ok.injEq, Prod.mk.injEq] at h
          obtain ⟨h1, -⟩ := h
          subst h1
          exact ⟨rfl, rfl, fun k _ => rfl⟩
        · simp only [Except.ok.injEq, Prod.mk.injEq] at h
          obtain ⟨h1, -⟩ := h
          subst h1
          exact ⟨rfl, rfl, fun k hk => updFn_other st.dataKeys key k _ hk⟩
  · simp only [Except.ok.injEq, Prod.mk.injEq] at h
    obtain ⟨h1, -⟩ := h
    subst h1
    exact ⟨rfl, rfl, fun k _ => rfl⟩

theorem processFieldFirst_agreesOff (st : StreamState) (key : String)
    (values : List PyVal) (tsList : List Rat) (info : DataKeyInfo) :
    agreesOff st (outState (processFieldFirst st key values tsList info)) key := by
  intro k hk
  unfold processFieldFirst
  split
  · exact ⟨rfl, rfl, rfl⟩
  next st1 info1 heq =>
    obtain ⟨hd, ht, hdk⟩ := shapeStep_ok_state st key values info st1 info1 heq
    have hbase : st1.dataKeys k = st.dataKeys k ∧ st1.data k = st.data k ∧
        st1.timestamps k = st.timestamps k :=
      ⟨hdk k hk, congrFun hd k, congrFun ht k⟩
    split
    · exact hbase
    · split
      · exact hbase
      · split
        · exact ⟨hbase.1,
            by simpa [outState, updFn_other _ _ _ _ hk] using hbase.2.1, hbase.2.2⟩
        · split
          · exact ⟨hbase.1,
              by simpa [outState, updFn_other _ _ _ _ hk] using hbase.2.1, hbase.2.2⟩
          · exact ⟨hbase.1,
              by simpa [outState, updFn_other _ _ _ _ hk] using hbase.2.1,
              by simpa [outState, updFn_other _ _ _ _ hk] using hbase.2.2⟩

theorem processFieldFirst_ok_spec (st : StreamState) (key : String)
    (values : List PyVal) (tsList : List Rat) (info : DataKeyInfo)
    (st' : StreamState)
    (h : processFieldFirst st key values tsList info = Except.ok st')
    (hlen : tsList.length = values.length) :
    st.timestamps key = none ∧
    (∃ ds, st'.data key = some ds ∧ ds.rows = values) ∧
    st'.timestamps key = some tsList := by
  unfold processFieldFirst at h
  split at h
  · simp at h
  next st1 info1 heq =>
    obtain ⟨hd, ht, -⟩ := shapeStep_ok_state st key values info st1 info1 heq
    split at h
    · simp at h
    · split at h
      · simp at h
      · split at h
        · simp at h
        next hnone =>
          have hassign : h5Assign1d key values.length tsList = Except.ok tsList := by
            simp [h5Assign1d, hlen]
          rw [hassign] at h
          simp only [Except.ok.injEq] at h
          subst h
          refine ⟨?_, ⟨_, updFn_self st1.data key _, rfl⟩,
            updFn_self st1.timestamps key tsList⟩
          rw [← congrFun ht key]
          exact hnone

theorem processFieldAppend_agreesOff (st : StreamState) (key : String)
    (values : List PyVal) (tsList : List Rat) (ds : H5Dataset) :
    agreesOff st (outState (processFieldAppend st key values tsList ds)) key := by
  intro k hk
  unfold processFieldAppend
  split
  · split
    · exact ⟨rfl, by simp [outState, updFn_other _ _ _ _ hk], rfl⟩
    · exact ⟨rfl, by simp [outState, updFn_other _ _ _ _ hk],
        by simp [outState, updFn_other _ _ _ _ hk]⟩
  · exact ⟨rfl, rfl, rfl⟩

theorem processFieldAppend_ok_spec (st : StreamState) (key : String)
    (values : List PyVal) (tsList : List Rat) (ds : H5Dataset)
    (st' : StreamState)
    (h : processFieldAppend st key values tsList ds = Except.ok st') :
    (∃ ds', st'.data key = some ds' ∧ ds'.rows = ds.rows ++ values) ∧
    (∃ ts0, st.timestamps key = some ts0 ∧
      st'.timestamps key = some (ts0 ++ tsList)) := by
  unfold processFieldAppend at h
  split at h
  · split at h
    · simp at h
    next ts0 hts0 =>
      simp only [Except.ok.injEq] at h
      subst h
      refine ⟨⟨_, updFn_self _ key _, rfl⟩, ⟨ts0, hts0, ?_⟩⟩
      exact updFn_self _ key _
  · simp at h

theorem processField_agreesOff (page : EventPage) (st : StreamState)
    (key : String) (values : List PyVal) :
    agreesOff st (outState (processField page st key values)) key := by
  unfold processField
  split
  · exact fun k _ => ⟨rfl, rfl, rfl⟩
  · split
    · exact fun k _ => ⟨rfl, rfl, rfl⟩
    · split
      · exact fun k _ => ⟨rfl, rfl, rfl⟩
      · split
        · exact processFieldFirst_agreesOff st key values _ _
        · exact processFieldAppend_agreesOff st key values _ _

theorem processField_ok_spec (page : EventPage) (st : StreamState)
    (key : String) (values : List PyVal) (st' : StreamState)
    (h : processField page st key values = Except.ok st')
    (hlen : ((page.timestamps key).getD []).length = values.length) :
    (∃ ds', st'.data key = some ds' ∧ ds'.rows = oldRows st key ++ values) ∧
    st'.timestamps key = some (oldTs st key ++ (page.timestamps key).getD []) := by
  unfold processField at h
  split at h
  · simp at h
  · split at h
    · simp at h
    next tsList heqts =>
      split at h
      · simp at h
      · split at h
        next hnew =>
          have hlen' : tsList.length = values.length := by
            rw [heqts] at hlen
            simpa using hlen
          obtain ⟨hts0, ⟨ds, hds, hrows⟩, hts'⟩ :=
            processFieldFirst_ok_spec st key values tsList _ st' h hlen'
          rw [heqts]
          constructor
          · exact ⟨ds, hds, by simp [hrows, oldRows, hnew]⟩
          · simp only [Option.getD_some]
            rw [hts']
            simp [oldTs, hts0]
        next ds0 hds0 =>
          obtain ⟨⟨ds', hds', hrows'⟩, ⟨ts0, hts0, hts'⟩⟩ :=
            processFieldAppend_ok_spec st key values tsList ds0 st' h
          rw [heqts]
          constructor
          · exact ⟨ds', hds', by simp [hrows', oldRows, hds0]⟩
          · simp only [Option.getD_some]
            rw [hts']
            simp [oldTs, hts0]

theorem processFields_ok_off (page : EventPage)
    (l : List (String × List PyVal)) (st st' : StreamState) (f : String)
    (h : processFields page st l = Except.ok st')
    (hf : l.lookup f = none) :
    st'.dataKeys f = st.dataKeys f ∧ st'.data f = st.data f ∧
      st'.timestamps f = st.timestamps f := by
  induction l generalizing st with
  | nil =>
    simp only [processFields, Except.ok.injEq] at h
    subst h
    exact ⟨rfl, rfl, rfl⟩
  | cons p rest ih =>
    obtain ⟨k, vs⟩ := p
    have hfk : f ≠ k := by
      intro hcontra
      subst hcontra
      rw [lookup_cons_self f vs rest] at hf
      exact Option.noConfusion hf
    rw [lookup_cons_ne k f vs rest hfk] at hf
    simp only [processFields] at h
    cases hpf : processField page st k vs with
    | error e => rw [hpf] at h; simp at h
    | ok st1 =>
      rw [hpf] at h
      have hagree := processField_agreesOff page st k vs f hfk
      rw [hpf] at hagree
      simp only [outState] at hagree
      obtain ⟨h1, h2, h3⟩ := hagree
      obtain ⟨g1, g2, g3⟩ := ih st1 h hf
      exact ⟨g1.trans h1, g2.trans h2, g3.trans h3⟩

theorem processFields_ok_spec (page : EventPage)
    (l : List (String × List PyVal)) (st st' : StreamState) (f : String)
    (vs : List PyVal)
    (h : processFields page st l = Except.ok st')
    (hnd : (l.map Prod.fst).Nodup)
    (hlk : l.lookup f = some vs)
    (hlen : ((page.timestamps f).getD []).length = vs.length) :
    (∃ ds', st'.data f = some ds' ∧ ds'.rows = oldRows st f ++ vs) ∧
    st'.timestamps f = some (oldTs st f ++ (page.timestamps f).getD []) := by
  induction l generalizing st with
  | nil => simp [List.lookup] at hlk
  | cons p rest ih =>
    obtain ⟨k, ws⟩ := p
    simp only [List.map_cons, List.nodup_cons] at hnd
    obtain ⟨hknotin, hndrest⟩ := hnd
    simp only [processFields] at h
    by_cases hfk : f = k
    · subst hfk
      rw [lookup_cons_self f ws rest] at hlk
      obtain hvs : ws = vs := by injection hlk
      subst hvs
      cases hpf : processField page st f ws with
      | error e => rw [hpf] at h; simp at h
      | ok st1 =>
        rw [hpf] at h
        obtain ⟨⟨ds1, hds1, hrows1⟩, hts1⟩ :=
          processField_ok_spec page st f ws st1 hpf hlen
        have hrest : rest.lookup f = none :=
          lookup_eq_none_of_not_mem f rest hknotin
        obtain ⟨-, g2, g3⟩ := processFields_ok_off page rest st1 st' f h hrest
        refine ⟨⟨ds1, g2.trans hds1, hrows1⟩, g3.trans hts1⟩
    · rw [lookup_cons_ne k f ws rest hfk] at hlk
      cases hpf : processField page st k ws with
      | error e => rw [hpf] at h; simp at h
      | ok st1 =>
        rw [hpf] at h
        have hagree := processField_agreesOff page st k ws f hfk
        rw [hpf] at hagree
        simp only [outState] at hagree
        obtain ⟨-, h2, h3⟩ := hagree
        have hold : oldRows st1 f = oldRows st f := by
          simp [oldRows, h2]
        have holdt : oldTs st1 f = oldTs st f := by
          simp [oldTs, h3]
        obtain ⟨⟨ds', hds', hrows'⟩, hts'⟩ := ih st1 h hndrest hlk
        exact ⟨⟨ds', hds', by rw [hrows', hold]⟩, by rw [hts', holdt]⟩

theorem processPages_spec (pages : List EventPage) (st st' : StreamState)
    (f : String)
    (h : processPages st pages = Except.ok st')
    (hnd : ∀ p ∈ pages, (p.data.map Prod.fst).Nodup)
    (hmem : ∀ p ∈ pages, (p.data.lookup f).isSome)
    (hlen : ∀ p ∈ pages,
      ((p.timestamps f).getD []).length = ((p.data.lookup f).getD []).length) :
    oldRows st' f =
      oldRows st f ++ (pages.map fun p => (p.data.lookup f).getD []).flatten ∧
    oldTs st' f =
      oldTs st f ++ (pages.map fun p => (p.timestamps f).getD []).flatten := by
  induction pages generalizing st with
  | nil =>
    simp only [processPages, Except.ok.injEq] at h
    subst h
    simp
  | cons p rest ih =>
    simp only [processPages] at h
    cases hpp : Serializer.event_page st p with
    | error e => rw [hpp] at h; simp at h
    | ok st1 =>
      rw [hpp] at h
      obtain ⟨vs, hvs⟩ := Option.isSome_iff_exists.mp (hmem p (by simp))
      have hlenp : ((p.timestamps f).getD []).length = vs.length := by
        have := hlen p (by simp)
        rwa [hvs, Option.getD_some] at this
      obtain ⟨⟨ds1, hds1, hrows1⟩, hts1⟩ :=
        processFields_ok_spec p p.data st st1 f vs hpp (hnd p (by simp)) hvs hlenp
      obtain ⟨g1, g2⟩ := ih st1 h (fun q hq => hnd q (by simp [hq]))
        (fun q hq => hmem q (by simp [hq])) (fun q hq => hlen q (by simp [hq]))
      have hold1 : oldRows st1 f = oldRows st f ++ vs := by
        simp [oldRows, hds1, hrows1]
      have hold2 : oldTs st1 f = oldTs st f ++ (p.timestamps f).getD [] := by
        simp [oldTs, hts1]
      rw [g1, g2, hold1, hold2]
      simp [hvs, List.append_assoc]

theorem processFields_append (page : EventPage)
    (l1 l2 : List (String × List PyVal)) (st : StreamState) :
    processFields page st (l1 ++ l2) =
      match processFields page st l1 with
      | .ok st' => processFields page st' l2
      | .error e => Except.error e := by
  induction l1 generalizing st with
  | nil => simp [processFields]
  | cons p rest ih =>
    obtain ⟨k, vs⟩ := p
    simp only [List.cons_append, processFields]
    cases hpf : processField page st k vs with
    | error e => rfl
    | ok st1 => exact ih st1

/-! ## Claim theorems -/

/-- C1: processing the stop document writes the stop metadata and then, for
each technique block in the start document's `md.techniques`, calls the
NeXus materializer — but the call site passes the keyword
`h5_group_or_dataset` while the callee's parameter is named `h5_group`, so
any run with at least one technique block raises TypeError before the
materializer body runs; a run with no technique blocks (absent `md` or an
empty list) completes `stop` without error and releases the file. -/
theorem stop_materializer_keyword_typeerror :
    Serializer.stop { md_techniques := some [saxsTechnique] }
        (Serializer.start Serializer.init) =
      Except.error (SerErr.typeError "h5_group_or_dataset") ∧
    Serializer.stop { md_techniques := some [] }
        (Serializer.start Serializer.init) =
      Except.ok
        { fileCreated := true, fileOpen := false, closeCalls := 1,
          materializerCalls := 0 } ∧
    Serializer.stop { md_techniques := none }
        (Serializer.start Serializer.init) =
      Except.ok
        { fileCreated := true, fileOpen := false, closeCalls := 1,
          materializerCalls := 0 } ∧
    firstBadKwarg copyNexusMdParamNames stopCallKeywordNames =
      some "h5_group_or_dataset" :=
  ⟨rfl, rfl, rfl, rfl⟩

/-- C2: for every field of a stream, after N event_pages contributing
k_1..k_N events for that field are processed successfully, the field's
value dataset and timestamp dataset have leading length Σ k_i and their
rows equal, in order, the concatenation of the per-event values
(respectively timestamps) supplied across the pages. -/
theorem event_page_append_monotonic (pages : List EventPage)
    (st0 st1 : StreamState) (f : String)
    (hrun : processPages st0 pages = Except.ok st1)
    (hnd : ∀ p ∈ pages, (p.data.map Prod.fst).Nodup)
    (hmem : ∀ p ∈ pages, (p.data.lookup f).isSome)
    (hlen : ∀ p ∈ pages,
      ((p.timestamps f).getD []).length = ((p.data.lookup f).getD []).length)
    (h0 : st0.data f = none) (h0t : st0.timestamps f = none) :
    oldRows st1 f = (pages.map fun p => (p.data.lookup f).getD []).flatten ∧
    oldTs st1 f = (pages.map fun p => (p.timestamps f).getD []).flatten ∧
    (oldRows st1 f).length =
      (pages.map fun p => ((p.data.lookup f).getD []).length).sum ∧
    (oldTs st1 f).length =
      (pages.map fun p => ((p.data.lookup f).getD []).length).sum := by
  obtain ⟨g1, g2⟩ := processPages_spec pages st0 st1 f hrun hnd hmem hlen
  have e0 : oldRows st0 f = [] := by simp [oldRows, h0]
  have e0t : oldTs st0 f = [] := by simp [oldTs, h0t]
  rw [e0] at g1
  rw [e0t] at g2
  simp only [List.nil_append] at g1 g2
  refine ⟨g1, g2, ?_, ?_⟩
  · rw [g1, List.length_flatten, List.map_map]
    rfl
  · rw [g2, List.length_flatten, List.map_map]
    refine congrArg List.sum (List.map_congr_left ?_)
    intro p hp
    simpa [Function.comp] using hlen p hp

/-- C2 witness: the two test pages of `en_energy` with values
`[1.0, 2.0]` then `[3.0, 4.0]`. -/
theorem event_page_append_monotonic_witness :
    oldRows c2St1 "en_energy" =
      ([c2Page1, c2Page2].map fun p =>
        (p.data.lookup "en_energy").getD []).flatten ∧
    oldTs c2St1 "en_energy" =
      ([c2Page1, c2Page2].map fun p =>
        (p.timestamps "en_energy").getD []).flatten ∧
    (oldRows c2St1 "en_energy").length =
      ([c2Page1, c2Page2].map fun p =>
        ((p.data.lookup "en_energy").getD []).length).sum ∧
    (oldTs c2St1 "en_energy").length =
      ([c2Page1, c2Page2].map fun p =>
        ((p.data.lookup "en_energy").getD []).length).sum :=
  event_page_append_monotonic [c2Page1, c2Page2] c2St0 c2St1 "en_energy"
    (by rfl) (by decide) (by decide) (by decide) rfl rfl

/-- C3 amended: a declared array shape whose leading axes (all but the last)
are the reverse of the first observed sample's shape, and whose leading two
axes do not already equal it, is corrected in place to the reverse of the
declared shape; a field whose declared shape's leading two axes equal the
observed shape passes reconciliation unchanged.  (The corrected, reversed
form itself does not pass a second reconciliation — see the
counterexample.) -/
theorem shape_reversal_correction (key : String) (dShape obs d2 : List Int)
    (hrev : dShape.reverse.drop 1 = obs)
    (hne : dShape.take 2 ≠ obs)
    (h2 : d2.take 2 = obs) :
    check_and_correct_h5_descriptor_array_shape key dShape obs =
      Except.ok (some dShape.reverse) ∧
    check_and_correct_h5_descriptor_array_shape key d2 obs =
      Except.ok none := by
  constructor
  · simp [check_and_correct_h5_descriptor_array_shape, hne, hrev]
  · simp [check_and_correct_h5_descriptor_array_shape, h2]

/-- C3 witness: the AreaDetector shape `[1024, 1026, 0]` against the sample
shape `(1026, 1024)`, and a second field declared `[1026, 1024, 0]`. -/
theorem shape_reversal_correction_witness :
    check_and_correct_h5_descriptor_array_shape "Synced_saxs_image"
        [1024, 1026, 0] [1026, 1024] =
      Except.ok (some [0, 1026, 1024]) ∧
    check_and_correct_h5_descriptor_array_shape "Synced_saxs_image"
        [1026, 1024, 0] [1026, 1024] =
      Except.ok none :=
  shape_reversal_correction "Synced_saxs_image" [1024, 1026, 0] [1026, 1024]
    [1026, 1024, 0] (by decide) (by decide) (by decide)

/-- C3 counterexample: reconciliation is not idempotent.  The correction of
`[1024, 1026, 0]` against the sample shape `(1026, 1024)` stores
`[0, 1026, 1024]`, but a field declared with that already-corrected shape is
rejected with the irreconcilable-shape ValueError rather than passing. -/
theorem shape_reversal_not_idempotent :
    check_and_correct_h5_descriptor_array_shape "Synced_saxs_image"
        [1024, 1026, 0] [1026, 1024] =
      Except.ok (some [0, 1026, 1024]) ∧
    check_and_correct_h5_descriptor_array_shape "Synced_saxs_image"
        [0, 1026, 1024] [1026, 1024] =
      Except.error (.valueError (irreconcilableMsg "Synced_saxs_image")) :=
  ⟨rfl, rfl⟩

/-- C4: resolution of a `#bluesky/desc/<stream>/...` path fails with a
KeyError.  The parser returns doc `"desc"` with the stream name, but the
resolver indexes `bluesky["desc"]` — a group that never exists, since the
raw tree stores descriptors under `bluesky/descriptors/<stream>` — and it
never reads the stream name.  Walking the tree the way the claim describes
(through `descriptors/primary`) reaches the node, and start/stop paths
resolve as claimed. -/
theorem desc_path_resolution_keyerror :
    _parse_bluesky_document_path "#bluesky/desc/primary/data_keys" =
      Except.ok descPathPrimary ∧
    _get_h5_group_or_dataset descPathPrimary sampleRawFile =
      Except.error (.keyError "desc") ∧
    (do
      let bs ← h5Index sampleRawFile "bluesky"
      let d ← h5Index bs "descriptors"
      let p ← h5Index d "primary"
      h5Index p "data_keys") =
      Except.ok (H5Node.grp [("en_energy", H5Node.grp [])]) ∧
    _parse_bluesky_document_path "#bluesky/start/beamline_id" =
      Except.ok startPathBeamline ∧
    _get_h5_group_or_dataset startPathBeamline sampleRawFile =
      Except.ok (H5Node.ds true (.pystr "SST-1")) :=
  ⟨rfl, rfl, rfl, rfl, rfl⟩

/-- C5 amended: an event_page with a field marked `filled: false` raises
when the loop reaches that field; no storage is created for the unfilled
field itself or for fields after it, but fields earlier in the page's
iteration order have already been written — the check is per-field, not
all-or-nothing for the page. -/
theorem event_page_unfilled_raises_at_field (page : EventPage)
    (st st' : StreamState) (pre post : List (String × List PyVal))
    (key : String) (values : List PyVal)
    (hdata : page.data = pre ++ (key, values) :: post)
    (hfill : page.filled key = some false)
    (hpre : processFields page st pre = Except.ok st')
    (hnot : key ∉ pre.map Prod.fst)
    (h0 : st.data key = none) (h0t : st.timestamps key = none) :
    Serializer.event_page st page = Except.error (.unfilled key, st') ∧
    st'.data key = none ∧ st'.timestamps key = none := by
  have hlk : pre.lookup key = none := lookup_eq_none_of_not_mem key pre hnot
  obtain ⟨-, g2, g3⟩ := processFields_ok_off page pre st st' key hpre hlk
  refine ⟨?_, g2.trans h0, g3.trans h0t⟩
  unfold Serializer.event_page
  rw [hdata, processFields_append, hpre]
  simp [processFields, processField, hfill]

/-- C5 witness for the amended claim: page `c5Page` with fields `a` (filled)
then `b` (unfilled). -/
theorem event_page_unfilled_raises_at_field_witness :
    Serializer.event_page c5St0 c5Page =
      Except.error (.unfilled "b", c5ErrState) ∧
    c5ErrState.data "b" = none ∧ c5ErrState.timestamps "b" = none :=
  event_page_unfilled_raises_at_field c5Page c5St0 c5ErrState
    [("a", [PyVal.scalar 1])] [] "b" [PyVal.scalar 2]
    rfl rfl (by rfl) (by decide) rfl rfl

/-- C5 counterexample: the raise is not before all storage mutation of the
page — when the unfilled field `b` is reached, the earlier field `a` of the
same page has already had its value and timestamp storage created. -/
theorem event_page_unfilled_not_atomic :
    Serializer.event_page c5St0 c5Page =
      Except.error (.unfilled "b", c5ErrState) ∧
    c5ErrState.data "a" =
      some { rowShape := [], dtype := H5Dtype.f8, rows := [PyVal.scalar 1] } ∧
    c5ErrState.timestamps "a" = some [100] :=
  ⟨rfl, rfl, rfl⟩

/-- C6 amended: on every scope exit `close()` is invoked: after `start` and
before `stop` the container is released exactly once; after a normal `stop`
the container was already closed inside `stop`, so scope exit invokes
`close()` a second time (harmless on the closed file, so the handle is not
leaked — but it is not exactly once); on exit before any `start`, `close()`
raises AttributeError because no file object exists. -/
theorem scope_exit_close_invocations (st : SerializerState) (doc : StartDocMd)
    (hcreated : st.fileCreated = true) (hnotech : doc.md_techniques = none) :
    Serializer.exitScope st =
      Except.ok { st with fileOpen := false, closeCalls := st.closeCalls + 1 } ∧
    (Serializer.stop doc st).bind Serializer.exitScope =
      Except.ok { st with fileOpen := false, closeCalls := st.closeCalls + 2 } ∧
    Serializer.exitScope Serializer.init =
      Except.error (SerErr.attributeError "close") := by
  refine ⟨?_, ?_, rfl⟩
  · simp [Serializer.exitScope, Serializer.close, hcreated]
  · have h1 : Serializer.stop doc st =
        Except.ok { st with fileOpen := false, closeCalls := st.closeCalls + 1 } := by
      unfold Serializer.stop
      rw [hnotech]
      show Serializer.close st = _
      simp [Serializer.close, hcreated]
    rw [h1]
    show Serializer.close _ = _
    simp [Serializer.close, hcreated]

/-- C6 witness: a started serializer with no techniques. -/
theorem scope_exit_close_invocations_witness :
    Serializer.exitScope (Serializer.start Serializer.init) =
      Except.ok
        { Serializer.start Serializer.init with
          fileOpen := false,
          closeCalls := (Serializer.start Serializer.init).closeCalls + 1 } ∧
    (Serializer.stop { md_techniques := none }
        (Serializer.start Serializer.init)).bind Serializer.exitScope =
      Except.ok
        { Serializer.start Serializer.init with
          fileOpen := false,
          closeCalls := (Serializer.start Serializer.init).closeCalls + 2 } ∧
    Serializer.exitScope Serializer.init =
      Except.error (SerErr.attributeError "close") :=
  scope_exit_close_invocations (Serializer.start Serializer.init)
    { md_techniques := none } rfl rfl

/-- C6 counterexample: on normal completion (`start`, technique-free `stop`,
scope exit) the close routine runs twice — once inside `stop` and once more
from `__exit__` — so the container is not released exactly once. -/
theorem scope_exit_double_close :
    normalScopeRun =
      Except.ok
        { fileCreated := true, fileOpen := false, closeCalls := 2,
          materializerCalls := 0 } ∧
    (2 : Nat) ≠ 1 :=
  ⟨rfl, by decide⟩

/-- C7 amended: every input whose leading part fails the grammar
`#bluesky/ doc-selector` raises the parse error naming the input string;
but because the regex is not anchored at the end, an input with a
conforming prefix is accepted even when its tail violates the grammar (see
the counterexample). -/
theorem parse_rejects_nonmatching_leading (s : String)
    (h : grammarMatchesLeading s = false) :
    _parse_bluesky_document_path s = Except.error (parseFailMsg s) ∧
    s.toList <:+: (parseFailMsg s).toList := by
  constructor
  · unfold _parse_bluesky_document_path
    unfold grammarMatchesLeading at h
    cases hd : dropLit ("#bluesky/".toList) s.toList with
    | none => rfl
    | some rest =>
      rw [hd] at h
      cases hs : parseSelector rest with
      | none => simp [hs]
      | some v => simp [hs] at h
  · refine ⟨"failed to parse ".toList ++ singleQuote.toList,
      singleQuote.toList, ?_⟩
    simp [parseFailMsg, String.toList, String.data_append, List.append_assoc]

/-- C7 witness: a string with no `#bluesky/` prefix is rejected with the
error message naming it. -/
theorem parse_rejects_nonmatching_leading_witness :
    _parse_bluesky_document_path "a-bad-path" =
      Except.error (parseFailMsg "a-bad-path") ∧
    "a-bad-path".toList <:+: (parseFailMsg "a-bad-path").toList :=
  parse_rejects_nonmatching_leading "a-bad-path" rfl

/-- C7 counterexample: `#bluesky/startxyz` does not match the grammar as a
whole string, yet parsing accepts it (as doc `start` with no keys, ignoring
the trailing `xyz`) instead of raising. -/
theorem parse_accepts_trailing_garbage :
    grammarMatchFull "#bluesky/startxyz" = false ∧
    _parse_bluesky_document_path "#bluesky/startxyz" =
      Except.ok { doc := "start", stream := none, keys := [], attrName := none } :=
  ⟨rfl, rfl⟩

/-- C8 amended: an array field whose declared leading axes are neither equal
to nor the reverse of the first observed sample's shape raises the
ValueError on first-batch processing, before any value or timestamp storage
is created for the field (the state is returned unchanged), and the error
message names the field — though not the two shapes. -/
theorem irreconcilable_shape_first_batch (page : EventPage) (st : StreamState)
    (key : String) (values : List PyVal) (info : DataKeyInfo)
    (obs : List Int) (dn : String) (flat : List Rat) (tsList : List Rat)
    (hfill : page.filled key ≠ some false)
    (hts : page.timestamps key = some tsList)
    (hinfo : st.dataKeys key = some info)
    (harray : info.dtype = "array")
    (hnew : st.data key = none)
    (hhead : values.head? = some (PyVal.arr obs dn flat))
    (hne1 : info.shape.take 2 ≠ obs)
    (hne2 : info.shape.reverse.drop 1 ≠ obs) :
    processField page st key values =
      Except.error (.valueError (irreconcilableMsg key), st) ∧
    key.toList <:+: (irreconcilableMsg key).toList := by
  constructor
  · have hne2' : info.shape.dropLast.reverse ≠ obs := by
      simpa using hne2
    unfold processField processFieldFirst shapeStep
    simp [hfill, hts, hinfo, hnew, harray, hhead, PyVal.evShape,
      check_and_correct_h5_descriptor_array_shape, hne1, hne2, hne2']
  · refine ⟨"descriptor and event_page array shapes for data_key ".toList,
      " can not be reconciled".toList, ?_⟩
    simp [irreconcilableMsg, String.toList, String.data_append,
      List.append_assoc]

/-- C8 witness: field `img` declared `[7, 9, 0]` with a `(5, 6)`-shaped
sample. -/
theorem irreconcilable_shape_first_batch_witness :
    processField c8Page c8St0 "img" [PyVal.arr [5, 6] "uint32" []] =
      Except.error (.valueError (irreconcilableMsg "img"), c8St0) ∧
    "img".toList <:+: (irreconcilableMsg "img").toList :=
  irreconcilable_shape_first_batch c8Page c8St0 "img"
    [PyVal.arr [5, 6] "uint32" []]
    { dtype := "array", shape := [7, 9, 0] } [5, 6] "uint32" [] [1000]
    (by decide) rfl rfl rfl rfl rfl (by decide) (by decide)

/-- C8 counterexample: the raised message contains no digit at all, so it
does not name the declared shape `[7, 9, 0]` or the observed shape
`(5, 6)`, contrary to the claim that it names both shapes. -/
theorem irreconcilable_msg_no_shapes :
    Serializer.event_page c8St0 c8Page =
      Except.error (.valueError (irreconcilableMsg "img"), c8St0) ∧
    (irreconcilableMsg "img").toList.all (fun c => !c.isDigit) = true :=
  ⟨rfl, by decide⟩

/-- C9: the metadata tree writer maps the value `None` and the literal
string `"None"` to the same stored leaf — a string-dtype dataset holding
`"None"` — so a reader of the container cannot distinguish them. -/
theorem metadata_none_string_collision (k : String) :
    _copy_metadata_to_h5_datasets [(k, MDTree.leaf MDVal.pynone)] =
      _copy_metadata_to_h5_datasets [(k, MDTree.leaf (MDVal.pystr "None"))] ∧
    _copy_metadata_to_h5_datasets [(k, MDTree.leaf MDVal.pynone)] =
      [(k, H5Node.ds true (MDVal.pystr "None"))] := by
  constructor <;> simp [_copy_metadata_to_h5_datasets, writeLeafDataset]

/-- C10: an event_page holding data for a field that the stream descriptor
never declared raises a KeyError when the stored descriptor information is
consulted, before any value or timestamp storage is created for that
field. -/
theorem event_page_undeclared_field_keyerror (page : EventPage)
    (st st' : StreamState) (pre post : List (String × List PyVal))
    (key : String) (values : List PyVal)
    (hdata : page.data = pre ++ (key, values) :: post)
    (hfill : page.filled key ≠ some false)
    (hts : (page.timestamps key).isSome)
    (hdk : st.dataKeys key = none)
    (hpre : processFields page st pre = Except.ok st')
    (hnot : key ∉ pre.map Prod.fst)
    (h0 : st.data key = none) (h0t : st.timestamps key = none) :
    Serializer.event_page st page = Except.error (.keyError key, st') ∧
    st'.data key = none ∧ st'.timestamps key = none := by
  have hlk : pre.lookup key = none := lookup_eq_none_of_not_mem key pre hnot
  obtain ⟨g1, g2, g3⟩ := processFields_ok_off page pre st st' key hpre hlk
  obtain ⟨ts, hts'⟩ := Option.isSome_iff_exists.mp hts
  refine ⟨?_, g2.trans h0, g3.trans h0t⟩
  unfold Serializer.event_page
  rw [hdata, processFields_append, hpre]
  simp [processFields, processField, hfill, hts', g1.trans hdk]

/-- C10 witness: a page for the undeclared field `mystery` on a stream with
no declared data_keys. -/
theorem event_page_undeclared_field_keyerror_witness :
    Serializer.event_page c10St0 c10Page =
      Except.error (.keyError "mystery", c10St0) ∧
    c10St0.data "mystery" = none ∧ c10St0.timestamps "mystery" = none :=
  event_page_undeclared_field_keyerror c10Page c10St0 c10St0 [] []
    "mystery" [PyVal.scalar 7]
    rfl (by decide) (by decide) rfl rfl (by decide) rfl rfl
